import Mathlib

/-!
Verification development for the out-of-process PTY supervision layer of the
`obsidian-code-unblock-terminal` plugin.

The development shallowly embeds the three components the checked properties
are about:

* the wire-protocol validator `isHostEvent` of `src/terminal/pty-manager.ts`
  over a model of untyped runtime values (`JVal`);
* the Host Supervisor (`PTYManager` of `src/terminal/pty-manager.ts`):
  session registry, request sending, host lifecycle (start, crash handler,
  bounded restart), and the handle returned by `spawn`;
* the PTY Worker (`src/terminal/pty-host.js`): the id-keyed process table and
  the `spawn`/`write`/`resize`/`kill` request handlers;
* the Session Orchestrator profile switch (`TerminalView.switchShell` of
  `src/terminal/terminal-view.ts`).

State that lives in the runtime environment (actual OS processes, timers,
the IPC transport) is modelled by explicit state fields and event traces;
the outcome of native calls that can fail (`pty.spawn`, `pty.write`, ...)
is passed in as an `Except` parameter.
-/

/-! ## Untyped runtime values crossing the process boundary

Messages arriving over the IPC channel are untyped at runtime.  `JVal`
models the JavaScript values that can be observed by the validator:
`null`, `undefined`, booleans, numbers (modelled as integers; the
validator only inspects `typeof`, which does not distinguish integral
from fractional numbers), strings, and objects (ordered field lists).
-/

inductive JVal where
  | null : JVal
  | undefVal : JVal
  | bool (b : Bool) : JVal
  | num (n : Int) : JVal
  | str (s : String) : JVal
  | obj (fields : List (String × JVal)) : JVal

/-- `typeof v` in JavaScript (note `typeof null = "object"`). -/
def jsTypeof : JVal → String
  | .null => "object"
  | .undefVal => "undefined"
  | .bool _ => "boolean"
  | .num _ => "number"
  | .str _ => "string"
  | .obj _ => "object"

/-- JavaScript truthiness (`!!v`): `null`, `undefined`, `false`, `0` and
the empty string are falsy; every object is truthy. -/
def jsTruthy : JVal → Bool
  | .null => false
  | .undefVal => false
  | .bool b => b
  | .num n => n != 0
  | .str s => s != ""
  | .obj _ => true

/-- Property access `v[k]`: `undefined` when the key is absent or the value
is not an object. -/
def getField : JVal → String → JVal
  | .obj fields, k =>
      match fields.find? (fun p => p.1 == k) with
      | some p => p.2
      | none => .undefVal
  | _, _ => .undefVal

/-- `typeof v === "number"`. -/
def isNum (v : JVal) : Bool := jsTypeof v = "number"

/-- `typeof v === "string"`. -/
def isStr (v : JVal) : Bool := jsTypeof v = "string"

/-- `typeof v === "undefined"`. -/
def isUndef (v : JVal) : Bool := jsTypeof v = "undefined"

/-- Numeric payload of a value, when it is a number. -/
def asNum : JVal → Option Int
  | .num n => some n
  | _ => none

/-- String payload of a value, when it is a string. -/
def asString : JVal → Option String
  | .str s => some s
  | _ => none

/-! ## Wire protocol: the structural validator

`isHostEvent` is the validator of `pty-manager.ts` (lines 61–122),
transcribed clause by clause.  The source first rejects non-objects
(`!message || typeof message !== 'object'`), then requires a string
`type`, then switches on it.
-/

/-- The structural validator `isHostEvent` of `pty-manager.ts`. -/
def isHostEvent (m : JVal) : Bool :=
  if !jsTruthy m || jsTypeof m ≠ "object" then false
  else
    match asString (getField m "type") with
    | none => false
    | some t =>
      if t = "ready" then true
      else if t = "spawned" then
        isNum (getField m "id") && isNum (getField m "pid")
      else if t = "data" then
        isNum (getField m "id") && isStr (getField m "data")
      else if t = "exit" then
        isNum (getField m "id") && isNum (getField m "exitCode") &&
          (isNum (getField m "signal") || isUndef (getField m "signal"))
      else if t = "error" then
        jsTruthy (getField m "error") &&
          jsTypeof (getField m "error") = "object" &&
          isStr (getField (getField m "error") "message")
      else if t = "resized" then
        isNum (getField m "id") && isNum (getField m "cols") &&
          isNum (getField m "rows")
      else if t = "killed" then
        isNum (getField m "id")
      else false

/-! ### Specification-side shape predicates

The spec (§4.1) lists the event shapes as a table of required fields.  The
two predicates below are written from the specification's words, to be
compared with the validator from the source:

* `claimEventShape` is the claim's literal reading: a message is acceptable
  iff its `type` names a known event and every *required* field of that
  shape is correctly typed (optional fields unconstrained);
* `amendedEventShape` additionally requires, for `exit` only, that an
  optional `signal` field be a number when present — matching what the
  source validator enforces.
-/

/-- Field-type requirements used by the spec's shape table. -/
inductive FieldTy where
  | numTy : FieldTy
  | strTy : FieldTy
  | optNumTy : FieldTy
  | errObjTy : FieldTy

/-- One field check of the shape table. -/
def checkField (m : JVal) : String × FieldTy → Bool
  | (k, .numTy) => isNum (getField m k)
  | (k, .strTy) => isStr (getField m k)
  | (k, .optNumTy) => isNum (getField m k) || isUndef (getField m k)
  | (k, .errObjTy) =>
      jsTruthy (getField m k) && jsTypeof (getField m k) = "object" &&
        isStr (getField (getField m k) "message")

/-- Modelled from the claim's words: the known event shapes with their
*required* fields only (`ready{message?}`, `spawned{id, pid}`,
`data{id, data}`, `exit{id, exitCode, signal?}`, `error{id?, error}`,
`resized{id, cols, rows}`, `killed{id}`). -/
def claimShapeTable (t : String) : Option (List (String × FieldTy)) :=
  if t = "ready" then some []
  else if t = "spawned" then some [("id", .numTy), ("pid", .numTy)]
  else if t = "data" then some [("id", .numTy), ("data", .strTy)]
  else if t = "exit" then some [("id", .numTy), ("exitCode", .numTy)]
  else if t = "error" then some [("error", .errObjTy)]
  else if t = "resized" then
    some [("id", .numTy), ("cols", .numTy), ("rows", .numTy)]
  else if t = "killed" then some [("id", .numTy)]
  else none

/-- The amended shape table: identical to `claimShapeTable` except that the
`exit` shape also constrains the optional `signal` field to be a number
when present. -/
def amendedShapeTable (t : String) : Option (List (String × FieldTy)) :=
  if t = "ready" then some []
  else if t = "spawned" then some [("id", .numTy), ("pid", .numTy)]
  else if t = "data" then some [("id", .numTy), ("data", .strTy)]
  else if t = "exit" then
    some [("id", .numTy), ("exitCode", .numTy), ("signal", .optNumTy)]
  else if t = "error" then some [("error", .errObjTy)]
  else if t = "resized" then
    some [("id", .numTy), ("cols", .numTy), ("rows", .numTy)]
  else if t = "killed" then some [("id", .numTy)]
  else none

/-- Acceptability of a message under a shape table. -/
def shapeOk (table : String → Option (List (String × FieldTy))) (m : JVal) :
    Bool :=
  jsTypeof m = "object" && jsTruthy m &&
    (match asString (getField m "type") with
     | none => false
     | some t =>
       match table t with
       | none => false
       | some reqs => reqs.all (checkField m))

/-- The claim's literal acceptability predicate. -/
def claimEventShape (m : JVal) : Bool := shapeOk claimShapeTable m

/-- The amended acceptability predicate. -/
def amendedEventShape (m : JVal) : Bool := shapeOk amendedShapeTable m

/-- The source validator agrees with the amended shape predicate on every
runtime value. -/
theorem isHostEvent_eq_amendedEventShape (m : JVal) :
    isHostEvent m = amendedEventShape m := by
  cases m with
  | obj fs =>
      rw [isHostEvent, amendedEventShape, shapeOk]
      simp only [jsTruthy, jsTypeof, Bool.not_true]
      rcases h : asString (getField (JVal.obj fs) "type") with _ | t
      · simp
      · simp only []
        by_cases h1 : t = "ready"
        · subst h1; simp [amendedShapeTable]
        · by_cases h2 : t = "spawned"
          · subst h2; simp [amendedShapeTable, checkField]
          · by_cases h3 : t = "data"
            · subst h3; simp [amendedShapeTable, checkField]
            · by_cases h4 : t = "exit"
              · subst h4
                simp [amendedShapeTable, checkField, Bool.and_assoc]
              · by_cases h5 : t = "error"
                · subst h5
                  simp [amendedShapeTable, checkField, Bool.and_assoc,
                    jsTruthy, jsTypeof]
                · by_cases h6 : t = "resized"
                  · subst h6
                    simp [amendedShapeTable, checkField, Bool.and_assoc]
                  · by_cases h7 : t = "killed"
                    · subst h7; simp [amendedShapeTable, checkField]
                    · simp [amendedShapeTable, h1, h2, h3, h4, h5, h6, h7]
  | null => rfl
  | undefVal => rfl
  | bool b => cases b <;> rfl
  | num n => by_cases h : n = 0 <;> simp [isHostEvent, amendedEventShape,
      shapeOk, jsTruthy, jsTypeof, h]
  | str s => by_cases h : s = "" <;> simp [isHostEvent, amendedEventShape,
      shapeOk, jsTruthy, jsTypeof, h]

/-- A concrete `exit` message whose required fields (`id`, `exitCode`) are
correctly typed but whose optional `signal` field is a string. -/
def exitBadSignalMsg : JVal :=
  .obj [("type", .str "exit"), ("id", .num 1), ("exitCode", .num 0),
        ("signal", .str "SIGTERM")]

example : isHostEvent exitBadSignalMsg = false := by decide
example : claimEventShape exitBadSignalMsg = true := by decide
example : amendedEventShape exitBadSignalMsg = false := by decide

/-! ## Typed protocol messages

`HostEvent` and `HostRequest` mirror the tagged unions of
`pty-manager.ts` (lines 25–59).  Session ids, pids, exit codes and
geometry are JavaScript numbers, modelled as integers.
-/

/-- Payload of an `error` event (`HostErrorPayload` in the source). -/
structure HostErrorPayload where
  message : String
  stack : Option String := none
  code : Option String := none
deriving DecidableEq

/-- Events sent from the PTY worker to the supervisor. -/
inductive HostEvent where
  | ready (message : Option String) : HostEvent
  | spawned (id : Int) (pid : Int) : HostEvent
  | data (id : Int) (data : String) : HostEvent
  | exit (id : Int) (exitCode : Int) (signal : Option Int) : HostEvent
  | error (id : Option Int) (error : HostErrorPayload) : HostEvent
  | resized (id : Int) (cols : Int) (rows : Int) : HostEvent
  | killed (id : Int) : HostEvent
deriving DecidableEq

/-- Requests sent from the supervisor to the PTY worker. -/
inductive HostRequest where
  | spawn (id : Int) (shell : String) (args : List String) (cwd : String)
      (env : List (String × String)) (cols : Int) (rows : Int) : HostRequest
  | write (id : Int) (data : String) : HostRequest
  | resize (id : Int) (cols : Int) (rows : Int) : HostRequest
  | kill (id : Int) (signal : Option String) : HostRequest
deriving DecidableEq

/-- Extraction of the typed event from a raw value that passed the
validator.  Mirrors the field accesses that `handleHostMessage` performs
on a validated message; yields `none` exactly on the values the
validator rejects. -/
def parseHostEvent (m : JVal) : Option HostEvent :=
  if !jsTruthy m || jsTypeof m ≠ "object" then none
  else
    match asString (getField m "type") with
    | none => none
    | some t =>
      if t = "ready" then some (.ready (asString (getField m "message")))
      else if t = "spawned" then
        match asNum (getField m "id"), asNum (getField m "pid") with
        | some i, some p => some (.spawned i p)
        | _, _ => none
      else if t = "data" then
        match asNum (getField m "id"), asString (getField m "data") with
        | some i, some d => some (.data i d)
        | _, _ => none
      else if t = "exit" then
        match asNum (getField m "id"), asNum (getField m "exitCode") with
        | some i, some c =>
          if isNum (getField m "signal") then
            match asNum (getField m "signal") with
            | some sg => some (.exit i c (some sg))
            | none => none
          else if isUndef (getField m "signal") then some (.exit i c none)
          else none
        | _, _ => none
      else if t = "error" then
        if jsTruthy (getField m "error") &&
            jsTypeof (getField m "error") = "object" then
          match asString (getField (getField m "error") "message") with
          | some msg =>
            some (.error (asNum (getField m "id"))
              { message := msg,
                stack := asString (getField (getField m "error") "stack"),
                code := asString (getField (getField m "error") "code") })
          | none => none
        else none
      else if t = "resized" then
        match asNum (getField m "id"), asNum (getField m "cols"),
            asNum (getField m "rows") with
        | some i, some c, some r => some (.resized i c r)
        | _, _, _ => none
      else if t = "killed" then
        match asNum (getField m "id") with
        | some i => some (.killed i)
        | none => none
      else none

/-- `asNum` succeeds exactly on numbers. -/
theorem isSome_asNum (v : JVal) : (asNum v).isSome = isNum v := by
  cases v <;> rfl

/-- `asString` succeeds exactly on strings. -/
theorem isSome_asString (v : JVal) : (asString v).isSome = isStr v := by
  cases v <;> rfl

/-- Parsing succeeds exactly on the messages the validator accepts. -/
theorem isSome_parseHostEvent (m : JVal) :
    (parseHostEvent m).isSome = isHostEvent m := by
  rw [parseHostEvent, isHostEvent]
  by_cases hT : jsTruthy m = true
  case neg =>
    simp only [Bool.not_eq_true] at hT
    simp [hT]
  by_cases hO : jsTypeof m = "object"
  case neg => simp [hT, hO]
  simp only [hT, hO, ne_eq, not_true_eq_false, Bool.not_true,
    Bool.or_self, Bool.false_or, Bool.or_false, if_false, or_self,
    not_false_eq_true, Bool.false_eq_true, false_or, if_neg]
  · rcases h : asString (getField m "type") with _ | t
    · rfl
    · simp only []
      by_cases h1 : t = "ready"
      · simp [h1]
      · by_cases h2 : t = "spawned"
        · subst h2
          simp only [h1, if_false, if_true, if_neg, reduceIte]
          rcases hi : asNum (getField m "id") with _ | i <;>
            rcases hp : asNum (getField m "pid") with _ | p <;>
            simp [← isSome_asNum, hi, hp]
        · by_cases h3 : t = "data"
          · subst h3
            simp only [h1, h2, reduceIte, if_neg]
            rcases hi : asNum (getField m "id") with _ | i <;>
              rcases hd : asString (getField m "data") with _ | d <;>
              simp [← isSome_asNum, ← isSome_asString, hi, hd]
          · by_cases h4 : t = "exit"
            · subst h4
              simp only [h1, h2, h3, reduceIte, if_neg]
              rcases hi : asNum (getField m "id") with _ | i <;>
                rcases hc : asNum (getField m "exitCode") with _ | c <;>
                rcases hs : asNum (getField m "signal") with _ | sg <;>
                by_cases hu : isUndef (getField m "signal") <;>
                simp [← isSome_asNum, hi, hc, hs, hu]
            · by_cases h5 : t = "error"
              · subst h5
                simp only [h1, h2, h3, h4, reduceIte, if_neg]
                by_cases he : (jsTruthy (getField m "error") &&
                    decide (jsTypeof (getField m "error") = "object")) = true
                · rcases hm : asString (getField (getField m "error")
                      "message") with _ | msg <;>
                    simp [he, ← isSome_asString, hm, Bool.and_assoc]
                · simp only [Bool.not_eq_true] at he
                  simp [he, Bool.and_assoc]
              · by_cases h6 : t = "resized"
                · subst h6
                  simp only [h1, h2, h3, h4, h5, reduceIte, if_neg]
                  rcases hi : asNum (getField m "id") with _ | i <;>
                    rcases hc : asNum (getField m "cols") with _ | c <;>
                    rcases hr : asNum (getField m "rows") with _ | r <;>
                    simp [← isSome_asNum, hi, hc, hr]
                · by_cases h7 : t = "killed"
                  · subst h7
                    simp only [h1, h2, h3, h4, h5, h6, reduceIte, if_neg]
                    rcases hi : asNum (getField m "id") with _ | i <;>
                      simp [← isSome_asNum, hi]
                  · simp [h1, h2, h3, h4, h5, h6, h7]

/-! ## Host Supervisor (`PTYManager`)

The supervisor's mutable fields are collected in `PMState`.  Side effects
(events emitted on the `EventEmitter`, `Notice` popups, requests written
to the IPC channel, callback invocations) are modelled as append-only
logs so that theorems can count them.

The session registry `activePTYs : Map<number, ptyData>` is modelled by
the pair `store`/`activeIds`: `store` holds the `ptyData` records
themselves (which survive as closures captured by the returned
`PTYProcess` handle even after `activePTYs.delete`), and `activeIds`
holds the keys currently present in the map.
-/

namespace PM

/-- The mutable `ptyData` record created by `spawn` (callback lists plus
the last known pid).  Callbacks are identified by opaque tokens. -/
structure Entry where
  dataCallbacks : List Nat := []
  exitCallbacks : List Nat := []
  pid : Option Int := none
deriving DecidableEq

/-- `MAX_RESTART_ATTEMPTS` in the source. -/
def MAX_RESTART_ATTEMPTS : Nat := 3

/-- `RESTART_DELAY` (milliseconds) in the source. -/
def RESTART_DELAY : Nat := 1000

/-- The supervisor state.  Fields up to `restartAttempts` are the
instance fields of `PTYManager`; the remaining fields are append-only
logs of observable effects. -/
structure PMState where
  pluginDirSet : Bool := true
  hostProcess : Bool := false
  hostReady : Bool := false
  hostInitPromise : Option Nat := none
  nextPromiseId : Nat := 0
  nextPtyId : Int := 1
  activeIds : List Int := []
  store : List (Int × Entry) := []
  restartAttempts : Nat := 0
  restartAwaiting : Bool := false
  -- effect logs
  workerLaunches : Nat := 0
  restartsAttempted : Nat := 0
  cooldowns : List Nat := []
  hostExitEmits : Nat := 0
  hostErrorEmits : Nat := 0
  failNotices : Nat := 0
  reconnectNotices : Nat := 0
  spawnEmits : List (Int × Int) := []
  exitEmits : List (Int × Int × Option Int) := []
  resizeEmits : List (Int × Int × Int) := []
  errorEmits : List (Int × HostErrorPayload) := []
  invokedDataCbs : List (Nat × String) := []
  invokedExitCbs : List (Nat × Int × Option Int) := []
  sentRequests : List HostRequest := []
  invalidMsgLog : Nat := 0
deriving DecidableEq

/-- Lookup in the `ptyData` store (`Map.get`: first entry with the
key). -/
def storeGet : List (Int × Entry) → Int → Option Entry
  | [], _ => none
  | p :: tl, id => if p.1 = id then some p.2 else storeGet tl id

/-- `Map.set` semantics: replace the entry for `id` if present
(preserving insertion order), else append. -/
def storeSet : List (Int × Entry) → Int → Entry → List (Int × Entry)
  | [], id, e => [(id, e)]
  | p :: tl, id, e =>
      if p.1 = id then (id, e) :: tl else p :: storeSet tl id e

/-- In-place update of the entry for `id`, when present. -/
def storeModify : List (Int × Entry) → Int → (Entry → Entry) →
    List (Int × Entry)
  | [], _, _ => []
  | p :: tl, id, f =>
      if p.1 = id then (p.1, f p.2) :: storeModify tl id f
      else p :: storeModify tl id f

/-- `sendToHost` (pty-manager.ts lines 397–403): throws a "not ready"
error unless a host process exists and the readiness handshake has
completed; otherwise writes the request to the IPC channel. -/
def sendToHost (s : PMState) (r : HostRequest) : Except String PMState :=
  if !s.hostProcess || !s.hostReady then
    .error "PTY host not ready. Cannot send message."
  else
    .ok { s with sentRequests := s.sentRequests ++ [r] }

/-- Result of a `startHost()` call, as observed by its caller. -/
inductive StartRes where
  | alreadyRunning : StartRes
  | joined (p : Nat) : StartRes
  | launched (p : Nat) : StartRes
  | notInitialized : StartRes
deriving DecidableEq

/-- `startHost` (pty-manager.ts lines 168–312), up to its first
suspension point: if the host is running and ready, return; if an init
promise is stored, return it; otherwise (given a plugin directory)
create and store a new promise and spawn a fresh worker process. -/
def startHost (s : PMState) : PMState × StartRes :=
  if s.hostProcess && s.hostReady then (s, .alreadyRunning)
  else if h : s.hostInitPromise.isSome then (s, .joined (s.hostInitPromise.get h))
  else if !s.pluginDirSet then (s, .notInitialized)
  else
    let p := s.nextPromiseId
    ({ s with
        hostInitPromise := some p,
        nextPromiseId := p + 1,
        hostProcess := true,
        workerLaunches := s.workerLaunches + 1 }, .launched p)

/-- `attemptHostRestart` (pty-manager.ts lines 317–333): bump the
attempt counter, wait `RESTART_DELAY`, then call `startHost`; the
counter is reset (and a reconnect notice shown) only when the awaited
readiness later resolves, which is recorded by `restartAwaiting`. -/
def attemptHostRestart (s : PMState) : PMState :=
  let s := { s with
    restartAttempts := s.restartAttempts + 1,
    restartsAttempted := s.restartsAttempted + 1,
    cooldowns := s.cooldowns ++ [RESTART_DELAY],
    restartAwaiting := true }
  (startHost s).1

/-- The host process `exit` listener installed by `startHost`
(pty-manager.ts lines 260–279): reset the handle state, emit one
`host-exit` notification, then either attempt a restart (non-zero exit
code and budget remaining) or, once the budget is exhausted, show the
terminal failure notice. -/
def hostExitListener (s : PMState) (code : Int) (_signal : Option Int) :
    PMState :=
  let s := { s with
    hostReady := false,
    hostProcess := false,
    hostInitPromise := none,
    hostExitEmits := s.hostExitEmits + 1 }
  if code ≠ 0 && s.restartAttempts < MAX_RESTART_ATTEMPTS then
    attemptHostRestart s
  else if s.restartAttempts ≥ MAX_RESTART_ATTEMPTS then
    { s with failNotices := s.failNotices + 1 }
  else s

/-- `handleHostMessage` (pty-manager.ts lines 338–392): demultiplex one
validated event to the session registry. -/
def handleHostMessage (s : PMState) (e : HostEvent) : PMState :=
  match e with
  | .ready _ => s
  | .spawned id pid =>
      if id ∈ s.activeIds then
        { s with
            store := storeModify s.store id (fun en => { en with pid := some pid }),
            spawnEmits := s.spawnEmits ++ [(id, pid)] }
      else s
  | .data id d =>
      if id ∈ s.activeIds then
        match storeGet s.store id with
        | some en =>
            { s with invokedDataCbs :=
                s.invokedDataCbs ++ en.dataCallbacks.map (fun t => (t, d)) }
        | none => s
      else s
  | .exit id exitCode signal =>
      if id ∈ s.activeIds then
        match storeGet s.store id with
        | some en =>
            { s with
                invokedExitCbs := s.invokedExitCbs ++
                  en.exitCallbacks.map (fun t => (t, exitCode, signal)),
                activeIds := s.activeIds.erase id,
                exitEmits := s.exitEmits ++ [(id, exitCode, signal)] }
        | none => s
      else s
  | .error oid err =>
      match oid with
      | some id => { s with errorEmits := s.errorEmits ++ [(id, err)] }
      | none => s
  | .resized id cols rows =>
      { s with resizeEmits := s.resizeEmits ++ [(id, cols, rows)] }
  | .killed id => { s with activeIds := s.activeIds.erase id }

/-- Resolution of the stored readiness promise (the `resolve()` call in
`handleRawMessage`): the `await startHost()` inside
`attemptHostRestart` resumes, resetting the attempt counter and showing
the reconnect notice. -/
def resolveReady (s : PMState) : PMState :=
  let s := { s with hostReady := true }
  if s.restartAwaiting then
    { s with
        restartAttempts := 0,
        reconnectNotices := s.reconnectNotices + 1,
        restartAwaiting := false }
  else s

/-- The post-validation part of `handleRawMessage` (pty-manager.ts lines
233–254): before readiness, a `ready` event completes the handshake and
an `error` event emits `host-error`, rejects the init promise and
returns without dispatching; every other validated event falls through
to `handleHostMessage`. -/
def handleValidated (s : PMState) (e : HostEvent) : PMState :=
  if !s.hostReady then
    match e with
    | .ready _ => handleHostMessage (resolveReady s) e
    | .error _ _ =>
        { s with
            hostErrorEmits := s.hostErrorEmits + 1,
            restartAwaiting := false }
    | _ => handleHostMessage s e
  else handleHostMessage s e

/-- `handleRawMessage` (pty-manager.ts lines 233–254) on an untyped
inbound value: invalid messages are logged and dropped before any
dispatch. -/
def handleRawMessage (s : PMState) (m : JVal) : PMState :=
  match parseHostEvent m with
  | none => { s with invalidMsgLog := s.invalidMsgLog + 1 }
  | some e => handleValidated s e

/-- Options accepted by `PTYManager.spawn` (`PTYOptions`). -/
structure PTYOptions where
  shell : String
  args : Option (List String) := none
  cwd : Option String := none
  env : Option (List (String × String)) := none
  cols : Option Int := none
  rows : Option Int := none

/-- `PTYManager.spawn` (pty-manager.ts lines 409–484) after its
`await startHost()` resumes: allocate the next id, register a fresh
`ptyData` entry, and send the spawn request (`procCwd`/`procEnv` stand
for `process.cwd()` and `process.env`; the spread `{...process.env,
...env}` is modelled by an append in which later bindings shadow
earlier ones).  Returns the allocated id. -/
def spawnAllocate (s : PMState) (o : PTYOptions) (procCwd : String)
    (procEnv : List (String × String)) : PMState × Int :=
  let id := s.nextPtyId
  let s := { s with
    nextPtyId := id + 1,
    activeIds := s.activeIds ++ [id],
    store := storeSet s.store id {} }
  let req : HostRequest := .spawn id o.shell (o.args.getD []) (o.cwd.getD procCwd)
    (procEnv ++ o.env.getD []) (o.cols.getD 80) (o.rows.getD 30)
  match sendToHost s req with
  | .ok s2 => (s2, id)
  | .error _ => (s, id)

/-- `PTYProcess.onData`: append a data callback to the session's
`ptyData` record. -/
def onDataCall (s : PMState) (id : Int) (token : Nat) : PMState :=
  let f : Entry → Entry :=
    fun en => { en with dataCallbacks := en.dataCallbacks ++ [token] }
  { s with store := storeModify s.store id f }

/-- `PTYProcess.onExit`: append an exit callback to the session's
`ptyData` record. -/
def onExitCall (s : PMState) (id : Int) (token : Nat) : PMState :=
  let f : Entry → Entry :=
    fun en => { en with exitCallbacks := en.exitCallbacks ++ [token] }
  { s with store := storeModify s.store id f }

/-- The `pid` getter of the handle returned by `spawn`
(pty-manager.ts lines 445–447): `return ptyData.pid || -1` — JavaScript
`||` yields `-1` both when `pid` is still `undefined` and when the
stored pid is the falsy number `0`. -/
def pidGetter (s : PMState) (id : Int) : Int :=
  match storeGet s.store id with
  | some en =>
      match en.pid with
      | some p => if p = 0 then -1 else p
      | none => -1
  | none => -1

/-- `getActivePTYCount` (pty-manager.ts lines 511–513). -/
def getActivePTYCount (s : PMState) : Nat := s.activeIds.length

/-- `stopHost` (pty-manager.ts lines 489–499). -/
def stopHost (s : PMState) : PMState :=
  if s.hostProcess then
    { s with
        hostProcess := false,
        hostReady := false,
        hostInitPromise := none,
        activeIds := [] }
  else s

end PM

namespace PM

/-! ### Trace semantics

The environment drives the supervisor through events: the host process
exiting, a validated message arriving on the channel, and the two public
API calls `spawn` and `stopHost`.  `hostCrash` and `hostMsg` are guarded
on a live host process — a dead worker can neither exit again nor send
messages. -/

/-- Environment events delivered to the supervisor. -/
inductive PMEvent where
  | hostCrash (code : Int) (signal : Option Int) : PMEvent
  | hostMsg (e : HostEvent) : PMEvent
  | spawnReq (o : PTYOptions) (procCwd : String)
      (procEnv : List (String × String)) : PMEvent
  | stopReq : PMEvent

/-- One step of the supervisor under an environment event. -/
def step (s : PMState) : PMEvent → PMState
  | .hostCrash code signal =>
      if s.hostProcess then hostExitListener s code signal else s
  | .hostMsg e => if s.hostProcess then handleValidated s e else s
  | .spawnReq o procCwd procEnv =>
      let s1 := (startHost s).1
      (spawnAllocate s1 o procCwd procEnv).1
  | .stopReq => stopHost s

/-- Run a trace of environment events. -/
def run (s : PMState) (evs : List PMEvent) : PMState :=
  evs.foldl step s

/-- Run a trace and also collect the session ids allocated by the
`spawn` calls it contains, in order. -/
def runIds (s : PMState) : List PMEvent → PMState × List Int
  | [] => (s, [])
  | e :: evs =>
      let s1 := step s e
      let rest := runIds s1 evs
      match e with
      | .spawnReq _ _ _ => (rest.1, s.nextPtyId :: rest.2)
      | _ => rest

/-- Events in which the supervisor's owner makes no new API call: the
worker crashing and messages arriving.  This is the "left alone"
alphabet of the consecutive-crash scenario. -/
def PMEvent.passive : PMEvent → Bool
  | .hostCrash _ _ => true
  | .hostMsg _ => true
  | _ => false

end PM

/-! ## PTY Worker (`pty-host.js`)

The worker's process table `ptyProcesses : Map<id, ptyProcess>` is
modelled as an association list from id to the native process' pid.
Native calls that can fail (`pty.spawn`, `ptyProcess.write`, ...) take
their outcome as an `Except` parameter; emitted IPC events and native
operations are returned alongside the new table.
-/

namespace Host

/-- Native pty operations performed by the worker. -/
inductive NativeOp where
  | spawnOp (id : Int) (shell : String) : NativeOp
  | writeOp (id : Int) (data : String) : NativeOp
  | resizeOp (id : Int) (cols : Int) (rows : Int) : NativeOp
  | killOp (id : Int) (signal : Option String) : NativeOp
deriving DecidableEq

/-- Worker state: whether the native backend loaded, and the id-keyed
process table. -/
structure WState where
  ptyLoaded : Bool := true
  table : List (Int × Int) := []
deriving DecidableEq

/-- Table lookup (`ptyProcesses.get(id)`). -/
def tableGet : List (Int × Int) → Int → Option Int
  | [], _ => none
  | p :: tl, id => if p.1 = id then some p.2 else tableGet tl id

/-- Table removal (`ptyProcesses.delete(id)`). -/
def tableDelete (t : List (Int × Int)) (id : Int) : List (Int × Int) :=
  t.filter (fun p => p.1 != id)

/-- `handleSpawn` (pty-host.js lines 87–158).  `spawnResult` is the
outcome of `pty.spawn`: the new native pid on success, the thrown
error's message on failure.  On success the process is registered and a
`spawned` event is sent; any failure is caught and reported as an
`error` event with code `PTY_SPAWN_FAILED`, leaving the table
unchanged. -/
def handleSpawn (w : WState) (id : Int) (shell : String)
    (spawnResult : Except String Int) :
    WState × List HostEvent × List NativeOp :=
  if !w.ptyLoaded then
    (w, [.error (some id)
      { message := "PTY module not initialized", code := some "PTY_SPAWN_FAILED" }], [])
  else
    match spawnResult with
    | .error msg =>
        (w, [.error (some id) { message := msg, code := some "PTY_SPAWN_FAILED" }], [])
    | .ok pid =>
        ({ w with table := w.table ++ [(id, pid)] },
         [.spawned id pid], [.spawnOp id shell])

/-- `handleWrite` (pty-host.js lines 163–187).  `writeResult` is the
outcome of `ptyProcess.write` when the process exists. -/
def handleWrite (w : WState) (id : Int) (data : String)
    (writeResult : Except String Unit) :
    WState × List HostEvent × List NativeOp :=
  match tableGet w.table id with
  | none =>
      (w, [.error (some id)
        { message := "PTY process " ++ toString id ++ " not found",
          code := some "PTY_WRITE_FAILED" }], [])
  | some _ =>
      match writeResult with
      | .ok _ => (w, [], [.writeOp id data])
      | .error msg =>
          (w, [.error (some id) { message := msg, code := some "PTY_WRITE_FAILED" }], [])

/-- `handleResize` (pty-host.js lines 192–224). -/
def handleResize (w : WState) (id : Int) (cols rows : Int)
    (resizeResult : Except String Unit) :
    WState × List HostEvent × List NativeOp :=
  match tableGet w.table id with
  | none =>
      (w, [.error (some id)
        { message := "PTY process " ++ toString id ++ " not found",
          code := some "PTY_RESIZE_FAILED" }], [])
  | some _ =>
      match resizeResult with
      | .ok _ => (w, [.resized id cols rows], [.resizeOp id cols rows])
      | .error msg =>
          (w, [.error (some id) { message := msg, code := some "PTY_RESIZE_FAILED" }], [])

/-- `handleKill` (pty-host.js lines 229–262).  On success the table
entry is removed and a `killed` acknowledgment is sent; if
`ptyProcess.kill` throws, the entry is kept and an error is reported. -/
def handleKill (w : WState) (id : Int) (signal : Option String)
    (killResult : Except String Unit) :
    WState × List HostEvent × List NativeOp :=
  match tableGet w.table id with
  | none =>
      (w, [.error (some id)
        { message := "PTY process " ++ toString id ++ " not found",
          code := some "PTY_KILL_FAILED" }], [])
  | some _ =>
      match killResult with
      | .ok _ =>
          ({ w with table := tableDelete w.table id }, [.killed id],
           [.killOp id signal])
      | .error msg =>
          (w, [.error (some id) { message := msg, code := some "PTY_KILL_FAILED" }], [])

end Host

/-! ## Session Orchestrator: profile switching (`TerminalView.switchShell`)

`switchShell` (terminal-view.ts lines 264–323) guards against concurrent
switches with the `switchInProgress` flag, set at entry and reset in a
`finally` block.  Because the `try` block ends with `return new
Promise(...)` (not `return await ...`), the `finally` clause executes as
soon as the promise object has been constructed — synchronously, before
the registered one-shot `exit` listener (or its 5-second timeout) ever
fires.  The model below separates the synchronous body of a call
(`switchShell`) from the later delivery of the shell's `exit` event
(`exitFires`).

The underlying `ShellManager` state is abstracted to the currently
running profile (`ptyProcess`/`currentProfile`); `start` is assumed to
spawn successfully, which is the race the claim is about.
-/

namespace TV

/-- Orchestrator state.  `waiters` are the one-shot `exit` listeners
registered by in-flight switches, each holding the profile to start;
`started` and `stops` log the `ShellManager.start`/`stop` effects. -/
structure TVState where
  switchInProgress : Bool := false
  running : Option Nat := none
  waiters : List Nat := []
  started : List Nat := []
  stops : Nat := 0
deriving DecidableEq

/-- `ShellManager.start(profile)` (shell-manager.ts lines 477–536) with a
successful spawn: if a shell is already running it is first killed
(with a warning), then the new profile's shell is spawned. -/
def startShell (s : TVState) (p : Nat) : TVState :=
  let s := if s.running.isSome then
    { s with running := none, stops := s.stops + 1 } else s
  { s with running := some p, started := s.started ++ [p] }

/-- `ShellManager.stop()` (shell-manager.ts lines 541–550): kill the
running shell, if any. -/
def stopShell (s : TVState) : TVState :=
  if s.running.isSome then { s with running := none, stops := s.stops + 1 }
  else s

/-- Observable outcome of the synchronous body of a `switchShell` call. -/
inductive SwitchRes where
  | dropped : SwitchRes
  | startedNow : SwitchRes
  | waiting : SwitchRes
deriving DecidableEq

/-- The synchronous body of `switchShell(profile)` (terminal-view.ts
lines 264–323): the guard, the flag set, the promise executor (register
a one-shot `exit` waiter and stop the running shell, or start
immediately), and the `finally` clause — which runs before the call
returns, so `switchInProgress` is `false` again in the resulting
state even when the switch is still waiting for the old shell's exit. -/
def switchShell (s : TVState) (p : Nat) : TVState × SwitchRes :=
  if s.switchInProgress then (s, .dropped)
  else
    let s := { s with switchInProgress := true }
    if s.running.isSome then
      let s := { s with waiters := s.waiters ++ [p] }
      let s := stopShell s
      ({ s with switchInProgress := false }, .waiting)
    else
      let s := startShell s p
      ({ s with switchInProgress := false }, .startedNow)

/-- Delivery of the shell's `exit` event: every registered one-shot
waiter fires in registration order, each starting its target profile. -/
def exitFires (s : TVState) : TVState :=
  let ws := s.waiters
  let s := { s with waiters := [] }
  ws.foldl startShell s

end TV

/-! ## Claim theorems -/

/-- A supervisor in the steady state right after a successful first
start: host process alive and ready, no sessions yet. -/
def pmReady : PM.PMState := { hostProcess := true, hostReady := true }

/-- A representative spawn request. -/
def pwshOpts : PM.PTYOptions := { shell := "pwsh" }

/-- C7 counterexample: a concrete inbound `exit` message whose required
fields `id` and `exitCode` are correctly typed numbers is nevertheless
rejected by the validator, because its optional `signal` field is a
string.  The claim's "accepts iff the required fields are correctly
typed" is therefore false as stated. -/
theorem C7_cex_wellTyped_exit_rejected :
    isHostEvent exitBadSignalMsg = false ∧
      claimEventShape exitBadSignalMsg = true := by
  exact ⟨by decide, by decide⟩

/-- C7 (amended): the validator accepts a message iff it matches one of
the known event shapes with correctly typed required fields and — the
amendment — with any present optional `signal` on `exit` being a
number; and every rejected message is only logged, never dispatched to
the event-handling logic (the supervisor state is unchanged except for
the invalid-message log). -/
theorem C7_validator_accepts_iff_shape (m : JVal) :
    (isHostEvent m = true ↔ amendedEventShape m = true) ∧
      (∀ s : PM.PMState, isHostEvent m = false →
        PM.handleRawMessage s m =
          { s with invalidMsgLog := s.invalidMsgLog + 1 }) := by
  constructor
  · rw [isHostEvent_eq_amendedEventShape]
  · intro s h
    have hp : (parseHostEvent m).isSome = false := by
      rw [isSome_parseHostEvent, h]
    rw [PM.handleRawMessage]
    rcases hq : parseHostEvent m with _ | e
    · rfl
    · rw [hq] at hp; simp at hp

/-- Witness for C7: the theorem applied to the concrete rejected
message. -/
theorem C7_witness :
    PM.handleRawMessage pmReady exitBadSignalMsg =
      { pmReady with invalidMsgLog := pmReady.invalidMsgLog + 1 } :=
  (C7_validator_accepts_iff_shape exitBadSignalMsg).2 pmReady (by decide)

/-- C9: a request send attempted while the worker handle is not ready
(host process absent, or readiness handshake not completed) throws the
"not ready" error synchronously and sends nothing; when the handle is
ready the send succeeds, appending exactly the request to the channel. -/
theorem C9_sendToHost_ready_guard (s : PM.PMState) (r : HostRequest) :
    ((s.hostProcess = false ∨ s.hostReady = false) →
        PM.sendToHost s r = .error "PTY host not ready. Cannot send message.") ∧
      (s.hostProcess = true → s.hostReady = true →
        PM.sendToHost s r = .ok { s with sentRequests := s.sentRequests ++ [r] }) := by
  constructor
  · intro h
    rcases h with h | h <;> simp [PM.sendToHost, h]
  · intro h1 h2
    simp [PM.sendToHost, h1, h2]

/-- Witness for C9: both branches of the theorem at concrete states. -/
theorem C9_witness :
    PM.sendToHost ({} : PM.PMState) (.write 1 "ls")
        = .error "PTY host not ready. Cannot send message." ∧
      PM.sendToHost pmReady (.write 1 "ls")
        = .ok { pmReady with sentRequests := [.write 1 "ls"] } :=
  ⟨(C9_sendToHost_ready_guard ({} : PM.PMState) (.write 1 "ls")).1 (Or.inl rfl),
   (C9_sendToHost_ready_guard pmReady (.write 1 "ls")).2 rfl rfl⟩

/-- An orchestrator with profile `0`'s shell running and no switch in
flight. -/
def tvRunning : TV.TVState := { running := some 0 }

/-- C4 (code bug): `switchShell`'s `finally` clause resets
`switchInProgress` as soon as the inner promise has been constructed —
synchronously, before the one-shot exit waiter fires.  Consequently a
second `switchShell(B)` issued while the first switch is still waiting
for the old shell's exit passes the guard, is *not* dropped, and starts
`B` immediately; when the old shell's exit event then arrives, the
first switch's waiter starts `A` on top of `B`.  The concrete trace:
shell `0` running, `switchShell 1`, then `switchShell 2` before the
exit event. -/
theorem C4_cex_second_switch_not_dropped :
    (TV.switchShell tvRunning 1).2 = .waiting ∧
      (TV.switchShell (TV.switchShell tvRunning 1).1 2).2 = .startedNow ∧
      (TV.switchShell (TV.switchShell tvRunning 1).1 2).2 ≠ .dropped ∧
      (TV.switchShell (TV.switchShell tvRunning 1).1 2).1.started = [2] ∧
      (TV.switchShell (TV.switchShell tvRunning 1).1 2).1.running = some 2 ∧
      (TV.exitFires (TV.switchShell (TV.switchShell tvRunning 1).1 2).1).running
        = some 1 ∧
      (TV.exitFires (TV.switchShell (TV.switchShell tvRunning 1).1 2).1).started
        = [2, 1] := by
  decide

/-- Helper: `startHost` never touches the session registry, the
callback-invocation logs, or the `host-exit` emission count. -/
theorem startHost_preserves_registry (s : PM.PMState) :
    ((PM.startHost s).1).activeIds = s.activeIds ∧
      ((PM.startHost s).1).invokedExitCbs = s.invokedExitCbs ∧
      ((PM.startHost s).1).invokedDataCbs = s.invokedDataCbs ∧
      ((PM.startHost s).1).hostExitEmits = s.hostExitEmits ∧
      ((PM.startHost s).1).store = s.store := by
  unfold PM.startHost
  split
  · exact ⟨rfl, rfl, rfl, rfl, rfl⟩
  · split
    · exact ⟨rfl, rfl, rfl, rfl, rfl⟩
    · split
      · exact ⟨rfl, rfl, rfl, rfl, rfl⟩
      · exact ⟨rfl, rfl, rfl, rfl, rfl⟩

/-- Helper: `startHost` never flips the readiness flag (readiness is set
only when the worker's `ready` event arrives). -/
theorem startHost_hostReady (s : PM.PMState) :
    ((PM.startHost s).1).hostReady = s.hostReady := by
  unfold PM.startHost
  split
  · rfl
  · split
    · rfl
    · split
      · rfl
      · rfl

/-- Supervisor with two registered sessions (ids 1 and 2), each with one
registered exit callback (tokens 10 and 20), host alive and ready —
the Scenario D configuration. -/
def pmTwoSessions : PM.PMState :=
  let a := PM.spawnAllocate pmReady pwshOpts "/vault" []
  let b := PM.spawnAllocate a.1 pwshOpts "/vault" []
  PM.onExitCall (PM.onExitCall b.1 a.2 10) b.2 20

/-- C1 counterexample: when the worker process itself exits while two
sessions are registered, the supervisor emits `host-exit` once but does
*not* clear the session registry (`getActivePTYCount()` is still 2, not
0) and invokes none of the sessions' exit/error callbacks. -/
theorem C1_cex_host_exit_keeps_registry :
    PM.getActivePTYCount (PM.hostExitListener pmTwoSessions 1 none) = 2 ∧
      PM.getActivePTYCount (PM.hostExitListener pmTwoSessions 1 none) ≠ 0 ∧
      (PM.hostExitListener pmTwoSessions 1 none).invokedExitCbs = [] ∧
      (PM.hostExitListener pmTwoSessions 1 none).hostExitEmits = 1 := by
  decide

/-- C1 (amended): on a worker-level exit the supervisor resets its
handle state and emits exactly one `host-exit` notification, but the
session registry is left untouched (`getActivePTYCount` unchanged) and
no session exit or data callback is invoked by the supervisor. -/
theorem C1_host_exit_spec (s : PM.PMState) (code : Int) (sig : Option Int) :
    (PM.hostExitListener s code sig).activeIds = s.activeIds ∧
      PM.getActivePTYCount (PM.hostExitListener s code sig) =
        PM.getActivePTYCount s ∧
      (PM.hostExitListener s code sig).invokedExitCbs = s.invokedExitCbs ∧
      (PM.hostExitListener s code sig).invokedDataCbs = s.invokedDataCbs ∧
      (PM.hostExitListener s code sig).hostExitEmits = s.hostExitEmits + 1 ∧
      (PM.hostExitListener s code sig).hostReady = false := by
  dsimp only [PM.hostExitListener, PM.attemptHostRestart, PM.getActivePTYCount]
  split
  · refine ⟨(startHost_preserves_registry _).1, ?_,
      (startHost_preserves_registry _).2.1,
      (startHost_preserves_registry _).2.2.1, ?_, ?_⟩
    · rw [(startHost_preserves_registry _).1]
    · rw [(startHost_preserves_registry _).2.2.2.1]
    · rw [startHost_hostReady]
  · split
    · exact ⟨rfl, rfl, rfl, rfl, rfl, rfl⟩
    · exact ⟨rfl, rfl, rfl, rfl, rfl, rfl⟩

/-- Supervisor right after a single `spawn()` call allocated session
id 1 and sent the spawn request. -/
def pmOneSession : PM.PMState := (PM.spawnAllocate pmReady pwshOpts "/vault" []).1

/-- The error payload the worker produces for a failed
`spawn({shell:"nonexistent-shell-xyz"})`. -/
def spawnFailPayload : HostErrorPayload :=
  { message := "spawn nonexistent-shell-xyz ENOENT",
    code := some "PTY_SPAWN_FAILED" }

/-- C2 counterexample: for the concrete failed spawn of session 1, the
worker's error event carries code `PTY_SPAWN_FAILED` — not
`SPAWN_FAILED` — and when the supervisor processes that error event the
session registry entry for id 1 is *not* removed. -/
theorem C2_cex_registry_entry_not_removed :
    (Host.handleSpawn {} 1 "nonexistent-shell-xyz"
        (.error "spawn nonexistent-shell-xyz ENOENT")).2.1 =
      [.error (some 1) spawnFailPayload] ∧
      ("PTY_SPAWN_FAILED" : String) ≠ "SPAWN_FAILED" ∧
      (PM.handleHostMessage pmOneSession (.error (some 1) spawnFailPayload)).activeIds
        = [1] ∧
      (PM.handleHostMessage pmOneSession (.error (some 1) spawnFailPayload)).activeIds
        ≠ [] := by
  refine ⟨by decide, by decide, by decide, by decide⟩

/-- C2 (amended): a spawn request whose shell cannot be spawned yields
exactly one `error` event carrying that session's id and code
`PTY_SPAWN_FAILED` (the message being the thrown error's message), no
`spawned` event, and no entry in the worker's process table; on the
supervisor side, however, processing an `error` event never removes the
session registry entry — it survives until an `exit`/`killed` event or
`stopHost()`. -/
theorem C2_spawn_failure_spec (w : Host.WState) (id : Int) (shell msg : String)
    (s : PM.PMState) (oid : Option Int) (err : HostErrorPayload) :
    (w.ptyLoaded = true →
        Host.handleSpawn w id shell (.error msg) =
          (w, [.error (some id) { message := msg, code := some "PTY_SPAWN_FAILED" }],
            [])) ∧
      (PM.handleHostMessage s (.error oid err)).activeIds = s.activeIds := by
  constructor
  · intro h
    simp [Host.handleSpawn, h]
  · cases oid <;> rfl

/-- Witness for C2: the theorem applied to the concrete failed spawn. -/
theorem C2_witness :
    Host.handleSpawn {} 1 "nonexistent-shell-xyz"
        (.error "spawn nonexistent-shell-xyz ENOENT") =
      ({}, [.error (some 1) spawnFailPayload], []) ∧
      (PM.handleHostMessage pmOneSession (.error (some 1) spawnFailPayload)).activeIds
        = pmOneSession.activeIds :=
  ⟨(C2_spawn_failure_spec {} 1 "nonexistent-shell-xyz"
      "spawn nonexistent-shell-xyz ENOENT" pmOneSession (some 1)
      spawnFailPayload).1 rfl,
   (C2_spawn_failure_spec {} 1 "nonexistent-shell-xyz"
      "spawn nonexistent-shell-xyz ENOENT" pmOneSession (some 1)
      spawnFailPayload).2⟩

/-- Helper: setting an entry makes it the one found. -/
theorem storeGet_storeSet_self (st : List (Int × PM.Entry)) (id : Int)
    (e : PM.Entry) : PM.storeGet (PM.storeSet st id e) id = some e := by
  induction st with
  | nil => simp [PM.storeGet, PM.storeSet]
  | cons hd tl ih =>
      by_cases hh : hd.1 = id
      · simp [PM.storeGet, PM.storeSet, hh]
      · simp [PM.storeGet, PM.storeSet, hh, ih]

/-- Helper: modifying the entry for `id` maps its lookup. -/
theorem storeGet_storeModify_self (st : List (Int × PM.Entry)) (id : Int)
    (f : PM.Entry → PM.Entry) :
    PM.storeGet (PM.storeModify st id f) id = (PM.storeGet st id).map f := by
  induction st with
  | nil => simp [PM.storeGet, PM.storeModify]
  | cons hd tl ih =>
      by_cases hh : hd.1 = id
      · simp [PM.storeGet, PM.storeModify, hh]
      · simp [PM.storeGet, PM.storeModify, hh, ih]

/-- Helper: modifying the entry for a different key leaves a lookup
unchanged. -/
theorem storeGet_storeModify_ne (st : List (Int × PM.Entry)) (j id : Int)
    (f : PM.Entry → PM.Entry) (h : j ≠ id) :
    PM.storeGet (PM.storeModify st j f) id = PM.storeGet st id := by
  induction st with
  | nil => simp [PM.storeGet, PM.storeModify]
  | cons hd tl ih =>
      by_cases hh : hd.1 = j
      · simp [PM.storeGet, PM.storeModify, hh, h, ih]
      · simp [PM.storeGet, PM.storeModify, hh, ih]

/-- Helper: `spawnAllocate` registers a fresh entry (no callbacks, no
pid) under the allocated id. -/
theorem spawnAllocate_store (s : PM.PMState) (o : PM.PTYOptions)
    (cwd : String) (env : List (String × String)) :
    ((PM.spawnAllocate s o cwd env).1).store =
      PM.storeSet s.store s.nextPtyId ({} : PM.Entry) := by
  unfold PM.spawnAllocate PM.sendToHost
  by_cases h : (!s.hostProcess || !s.hostReady) = true
  · simp [h]
  · simp [h]

/-- Helper: `spawnAllocate` returns the pre-call value of the id
counter. -/
theorem spawnAllocate_snd (s : PM.PMState) (o : PM.PTYOptions)
    (cwd : String) (env : List (String × String)) :
    (PM.spawnAllocate s o cwd env).2 = s.nextPtyId := by
  unfold PM.spawnAllocate PM.sendToHost
  by_cases h : (!s.hostProcess || !s.hostReady) = true
  · simp [h]
  · simp [h]

/-- Helper: demultiplexing any event other than `spawned` for `id`
leaves the handle's `pid` view of `id` unchanged. -/
theorem pidGetter_handleHostMessage_ne (s : PM.PMState) (id : Int)
    (e : HostEvent) (h : ∀ p : Int, e ≠ .spawned id p) :
    PM.pidGetter (PM.handleHostMessage s e) id = PM.pidGetter s id := by
  cases e with
  | ready msg => rfl
  | spawned j q =>
      have hj : j ≠ id := by
        intro hji
        exact h q (by rw [hji])
      simp only [PM.handleHostMessage]
      split
      · simp [PM.pidGetter, storeGet_storeModify_ne _ _ _ _ hj]
      · rfl
  | data j d =>
      simp only [PM.handleHostMessage]
      split
      · split <;> rfl
      · rfl
  | exit j c sg =>
      simp only [PM.handleHostMessage]
      split
      · split <;> rfl
      · rfl
  | error oid err => cases oid <;> rfl
  | resized j c r => rfl
  | killed j => rfl

/-- C10 counterexample: a worker-reported pid of `0` (a number, so the
`spawned` event passes validation) is falsy in JavaScript, so after the
`spawned` event is processed the handle's `pid` getter still evaluates
to `-1`, not to the reported pid. -/
theorem C10_cex_pid_zero_reported_as_minus_one :
    PM.pidGetter (PM.handleHostMessage pmOneSession (.spawned 1 0)) 1 = -1 ∧
      ((-1 : Int) ≠ 0) :=
  ⟨by decide, by decide⟩

/-- C10 (amended): the handle's `pid` is `-1` from the moment `spawn`
returns; after a `spawned` event for the session is processed it equals
the worker-reported pid when that pid is nonzero, and remains `-1` when
the reported pid is `0` (JavaScript `ptyData.pid || -1`); and if no
`spawned` event for the session is ever processed, it stays `-1`
forever (any other event stream leaves it unchanged). -/
theorem C10_pid_getter_spec :
    (∀ (s : PM.PMState) (o : PM.PTYOptions) (cwd : String)
        (env : List (String × String)),
      PM.pidGetter (PM.spawnAllocate s o cwd env).1
        (PM.spawnAllocate s o cwd env).2 = -1) ∧
      (∀ (s : PM.PMState) (id p : Int) (en : PM.Entry),
        id ∈ s.activeIds → PM.storeGet s.store id = some en →
        PM.pidGetter (PM.handleHostMessage s (.spawned id p)) id =
          if p = 0 then -1 else p) ∧
      (∀ (s : PM.PMState) (id : Int) (es : List HostEvent),
        (∀ e ∈ es, ∀ p : Int, e ≠ .spawned id p) →
        PM.pidGetter (es.foldl PM.handleHostMessage s) id =
          PM.pidGetter s id) := by
  refine ⟨?_, ?_, ?_⟩
  · intro s o cwd env
    rw [spawnAllocate_snd]
    unfold PM.pidGetter
    rw [spawnAllocate_store, storeGet_storeSet_self]
  · intro s id p en hmem hget
    simp only [PM.handleHostMessage, if_pos hmem]
    unfold PM.pidGetter
    rw [storeGet_storeModify_self, hget]
    rfl
  · intro s id es
    induction es generalizing s with
    | nil => intro _; rfl
    | cons e tl ih =>
        intro h
        have he : ∀ p : Int, e ≠ .spawned id p := h e (List.mem_cons_self e tl)
        have htl : ∀ x ∈ tl, ∀ p : Int, x ≠ .spawned id p :=
          fun x hx => h x (List.mem_cons_of_mem e hx)
        calc PM.pidGetter ((e :: tl).foldl PM.handleHostMessage s) id
            = PM.pidGetter (tl.foldl PM.handleHostMessage
                (PM.handleHostMessage s e)) id := rfl
          _ = PM.pidGetter (PM.handleHostMessage s e) id := ih _ htl
          _ = PM.pidGetter s id := pidGetter_handleHostMessage_ne s id e he

/-- Witness for C10: the three conjuncts at concrete inputs (the session
allocated by `pmOneSession`, a nonzero reported pid, and an unrelated
`data` event). -/
theorem C10_witness :
    PM.pidGetter (PM.spawnAllocate pmReady pwshOpts "/vault" []).1
        (PM.spawnAllocate pmReady pwshOpts "/vault" []).2 = -1 ∧
      PM.pidGetter (PM.handleHostMessage pmOneSession (.spawned 1 4242)) 1 =
        (if (4242 : Int) = 0 then -1 else 4242) ∧
      PM.pidGetter ([HostEvent.data 1 "hello"].foldl PM.handleHostMessage
        pmOneSession) 1 = PM.pidGetter pmOneSession 1 :=
  ⟨C10_pid_getter_spec.1 pmReady pwshOpts "/vault" [],
   C10_pid_getter_spec.2.1 pmOneSession 1 4242 {} (by decide) (by decide),
   C10_pid_getter_spec.2.2 pmOneSession 1 [.data 1 "hello"]
     (by
       intro e he p
       simp only [List.mem_singleton] at he
       subst he
       simp)⟩

/-- Helper: a passive event (crash or message) on a dead host is a
no-op. -/
theorem step_passive_dead (s : PM.PMState) (e : PM.PMEvent)
    (hp : PM.PMEvent.passive e = true) (hd : s.hostProcess = false) :
    PM.step s e = s := by
  cases e with
  | hostCrash c sg => simp [PM.step, hd]
  | hostMsg ev => simp [PM.step, hd]
  | spawnReq o c ev => simp [PM.PMEvent.passive] at hp
  | stopReq => simp [PM.PMEvent.passive] at hp

/-- Helper: a trace of passive events on a dead host changes nothing. -/
theorem run_passive_dead (evs : List PM.PMEvent) :
    ∀ s : PM.PMState, (∀ e ∈ evs, PM.PMEvent.passive e = true) →
      s.hostProcess = false → PM.run s evs = s := by
  induction evs with
  | nil => intro s _ _; rfl
  | cons e tl ih =>
      intro s h hd
      have he := h e (List.mem_cons_self e tl)
      have hstep := step_passive_dead s e he hd
      show PM.run (PM.step s e) tl = s
      rw [hstep]
      exact ih s (fun x hx => h x (List.mem_cons_of_mem e hx)) hd

/-- The supervisor after four consecutive worker crashes from the ready
state: the restart budget is exhausted and the host is down. -/
def crashedOut : PM.PMState :=
  PM.run pmReady (List.replicate 4 (PM.PMEvent.hostCrash 1 none))

/-- C3: starting from a ready supervisor, `n > 3` consecutive worker
crashes (exit code 1, the supervisor otherwise left alone) cause
exactly `MAX_RESTART_ATTEMPTS = 3` restart attempts, each preceded by
the 1-second (`RESTART_DELAY`) cooldown, and exactly one terminal
failure notice; and under any further crashes or worker messages no
additional restart is ever attempted and no second notice appears. -/
theorem C3_restart_budget (n : Nat) (h : 3 < n) :
    (PM.run pmReady (List.replicate n (PM.PMEvent.hostCrash 1 none))).restartsAttempted = 3 ∧
      (PM.run pmReady (List.replicate n (PM.PMEvent.hostCrash 1 none))).cooldowns =
        List.replicate 3 PM.RESTART_DELAY ∧
      (PM.run pmReady (List.replicate n (PM.PMEvent.hostCrash 1 none))).failNotices = 1 ∧
      (∀ evs : List PM.PMEvent, (∀ e ∈ evs, PM.PMEvent.passive e = true) →
        (PM.run (PM.run pmReady (List.replicate n (PM.PMEvent.hostCrash 1 none))) evs).restartsAttempted = 3 ∧
        (PM.run (PM.run pmReady (List.replicate n (PM.PMEvent.hostCrash 1 none))) evs).failNotices = 1) := by
  have hsplit : List.replicate n (PM.PMEvent.hostCrash 1 none) =
      List.replicate 4 (PM.PMEvent.hostCrash 1 none) ++
        List.replicate (n - 4) (PM.PMEvent.hostCrash 1 none) := by
    rw [← List.replicate_add]
    congr 1
    omega
  have hdead : crashedOut.hostProcess = false := by decide
  have hrun : PM.run pmReady (List.replicate n (PM.PMEvent.hostCrash 1 none)) =
      crashedOut := by
    rw [hsplit]
    show PM.run pmReady _ = _
    rw [PM.run, List.foldl_append]
    have hpassive : ∀ e ∈ List.replicate (n - 4) (PM.PMEvent.hostCrash 1 none),
        PM.PMEvent.passive e = true := by
      intro e he
      rw [List.eq_of_mem_replicate he]
      rfl
    exact run_passive_dead _ crashedOut hpassive hdead
  rw [hrun]
  refine ⟨by decide, by decide, by decide, ?_⟩
  intro evs hp
  rw [run_passive_dead evs crashedOut hp hdead]
  exact ⟨by decide, by decide⟩

/-- Witness for C3: five consecutive crashes, followed by one more
crash and one stray message. -/
theorem C3_witness :
    (PM.run pmReady (List.replicate 5 (PM.PMEvent.hostCrash 1 none))).restartsAttempted = 3 ∧
      (PM.run (PM.run pmReady (List.replicate 5 (PM.PMEvent.hostCrash 1 none)))
        [PM.PMEvent.hostCrash 1 none, PM.PMEvent.hostMsg (.ready none)]).failNotices = 1 := by
  refine ⟨(C3_restart_budget 5 (by decide)).1, ?_⟩
  exact ((C3_restart_budget 5 (by decide)).2.2.2
    [PM.PMEvent.hostCrash 1 none, PM.PMEvent.hostMsg (.ready none)]
    (by
      intro e he
      simp only [List.mem_cons, List.not_mem_nil, or_false] at he
      rcases he with rfl | rfl <;> rfl)).2

/-- Iterated `startHost()` calls with no intervening events, collecting
each caller's observed result. -/
def iterStartHost : Nat → PM.PMState → PM.PMState × List PM.StartRes
  | 0, s => (s, [])
  | n + 1, s =>
      let r := PM.startHost s
      let rest := iterStartHost n r.1
      (rest.1, r.2 :: rest.2)

/-- Helper: while a readiness promise is stored and readiness has not
resolved, every `startHost()` call joins that same promise and changes
nothing. -/
theorem iterStartHost_joined (n : Nat) (s : PM.PMState) (p : Nat)
    (hp : s.hostInitPromise = some p) (hr : s.hostReady = false) :
    iterStartHost n s = (s, List.replicate n (PM.StartRes.joined p)) := by
  induction n with
  | zero => rfl
  | succ k ih =>
      have hstart : PM.startHost s = (s, PM.StartRes.joined p) := by
        unfold PM.startHost
        simp [hp, hr]
      show (let r := PM.startHost s
            let rest := iterStartHost k r.1
            (rest.1, r.2 :: rest.2)) = _
      rw [hstart]
      simp only []
      rw [ih]
      rfl

/-- C5: for every batch of `spawn()`-initiated `startHost()` calls
issued before the first readiness resolves (fresh handle: no process,
not ready, no stored promise, plugin directory set), exactly one worker
process is launched — the first call launches and stores the readiness
promise, and every subsequent caller joins that same stored promise. -/
theorem C5_start_serialization (s : PM.PMState) (n : Nat)
    (hd : s.pluginDirSet = true) (hpr : s.hostProcess = false)
    (hr : s.hostReady = false) (hi : s.hostInitPromise = none) :
    ((iterStartHost (n + 1) s).1).workerLaunches = s.workerLaunches + 1 ∧
      (iterStartHost (n + 1) s).2 =
        PM.StartRes.launched s.nextPromiseId ::
          List.replicate n (PM.StartRes.joined s.nextPromiseId) := by
  have hstart : PM.startHost s =
      ({ s with
          hostInitPromise := some s.nextPromiseId,
          nextPromiseId := s.nextPromiseId + 1,
          hostProcess := true,
          workerLaunches := s.workerLaunches + 1 },
        PM.StartRes.launched s.nextPromiseId) := by
    unfold PM.startHost
    simp [hpr, hr, hi, hd]
  simp only [iterStartHost]
  rw [hstart]
  rw [iterStartHost_joined n
    ({ s with
        hostInitPromise := some s.nextPromiseId,
        nextPromiseId := s.nextPromiseId + 1,
        hostProcess := true,
        workerLaunches := s.workerLaunches + 1 })
    s.nextPromiseId rfl hr]
  exact ⟨rfl, rfl⟩

/-- Witness for C5: three concurrent calls on a fresh supervisor. -/
theorem C5_witness :
    ((iterStartHost 3 ({} : PM.PMState)).1).workerLaunches =
        ({} : PM.PMState).workerLaunches + 1 ∧
      (iterStartHost 3 ({} : PM.PMState)).2 =
        PM.StartRes.launched ({} : PM.PMState).nextPromiseId ::
          List.replicate 2 (PM.StartRes.joined ({} : PM.PMState).nextPromiseId) :=
  C5_start_serialization ({} : PM.PMState) 2 rfl rfl rfl rfl

/-- C8: a `write`, `resize` or `kill` request whose id is absent from
the worker's process table is handled totally (the thrown "not found"
error is caught): the worker emits exactly one `error` event carrying
that id, the code `PTY_<OP>_FAILED`, and a "process not found" message,
performs no native operation, and leaves the table unchanged. -/
theorem C8_unknown_id_recoverable (w : Host.WState) (id : Int)
    (data : String) (cols rows : Int) (sig : Option String)
    (wr rr kr : Except String Unit)
    (h : Host.tableGet w.table id = none) :
    Host.handleWrite w id data wr =
        (w, [.error (some id)
          { message := "PTY process " ++ toString id ++ " not found",
            code := some "PTY_WRITE_FAILED" }], []) ∧
      Host.handleResize w id cols rows rr =
        (w, [.error (some id)
          { message := "PTY process " ++ toString id ++ " not found",
            code := some "PTY_RESIZE_FAILED" }], []) ∧
      Host.handleKill w id sig kr =
        (w, [.error (some id)
          { message := "PTY process " ++ toString id ++ " not found",
            code := some "PTY_KILL_FAILED" }], []) := by
  refine ⟨?_, ?_, ?_⟩ <;> simp [Host.handleWrite, Host.handleResize,
    Host.handleKill, h]

/-- Witness for C8: `resize(100, 40)` (and a write and a kill) on the
already-removed session id 7 of a worker with an empty table. -/
theorem C8_witness :
    Host.handleWrite ({} : Host.WState) 7 "ls" (.ok ()) =
        (({} : Host.WState), [.error (some 7)
          { message := "PTY process " ++ toString (7 : Int) ++ " not found",
            code := some "PTY_WRITE_FAILED" }], []) ∧
      Host.handleResize ({} : Host.WState) 7 100 40 (.ok ()) =
        (({} : Host.WState), [.error (some 7)
          { message := "PTY process " ++ toString (7 : Int) ++ " not found",
            code := some "PTY_RESIZE_FAILED" }], []) ∧
      Host.handleKill ({} : Host.WState) 7 none (.ok ()) =
        (({} : Host.WState), [.error (some 7)
          { message := "PTY process " ++ toString (7 : Int) ++ " not found",
            code := some "PTY_KILL_FAILED" }], []) :=
  C8_unknown_id_recoverable ({} : Host.WState) 7 "ls" 100 40 none
    (.ok ()) (.ok ()) (.ok ()) rfl

/-- Helper: `startHost` never touches the session id counter. -/
theorem startHost_nextPtyId (s : PM.PMState) :
    ((PM.startHost s).1).nextPtyId = s.nextPtyId := by
  unfold PM.startHost
  split
  · rfl
  · split
    · rfl
    · split
      · rfl
      · rfl

/-- Helper: the crash listener (including a restart attempt) never
touches the session id counter. -/
theorem hostExitListener_nextPtyId (s : PM.PMState) (c : Int)
    (sg : Option Int) :
    (PM.hostExitListener s c sg).nextPtyId = s.nextPtyId := by
  dsimp only [PM.hostExitListener, PM.attemptHostRestart]
  split
  · rw [startHost_nextPtyId]
  · split
    · rfl
    · rfl

/-- Helper: event demultiplexing never touches the session id counter. -/
theorem handleHostMessage_nextPtyId (s : PM.PMState) (e : HostEvent) :
    (PM.handleHostMessage s e).nextPtyId = s.nextPtyId := by
  cases e with
  | ready m => rfl
  | spawned j q =>
      simp only [PM.handleHostMessage]
      split <;> rfl
  | data j d =>
      simp only [PM.handleHostMessage]
      split
      · split <;> rfl
      · rfl
  | exit j c sg =>
      simp only [PM.handleHostMessage]
      split
      · split <;> rfl
      · rfl
  | error oid err => cases oid <;> rfl
  | resized j c r => rfl
  | killed j => rfl

/-- Helper: readiness resolution never touches the session id counter. -/
theorem resolveReady_nextPtyId (s : PM.PMState) :
    (PM.resolveReady s).nextPtyId = s.nextPtyId := by
  dsimp only [PM.resolveReady]
  split <;> rfl

/-- Helper: the raw-message pipeline never touches the session id
counter. -/
theorem handleValidated_nextPtyId (s : PM.PMState) (e : HostEvent) :
    (PM.handleValidated s e).nextPtyId = s.nextPtyId := by
  unfold PM.handleValidated
  split
  · cases e with
    | ready m => rw [handleHostMessage_nextPtyId, resolveReady_nextPtyId]
    | error oid err => rfl
    | spawned j q => exact handleHostMessage_nextPtyId s _
    | data j d => exact handleHostMessage_nextPtyId s _
    | exit j c sg => exact handleHostMessage_nextPtyId s _
    | resized j c r => exact handleHostMessage_nextPtyId s _
    | killed j => exact handleHostMessage_nextPtyId s _
  · exact handleHostMessage_nextPtyId s e

/-- Helper: `stopHost` never touches the session id counter. -/
theorem stopHost_nextPtyId (s : PM.PMState) :
    (PM.stopHost s).nextPtyId = s.nextPtyId := by
  unfold PM.stopHost
  split <;> rfl

/-- Helper: a `spawn` call advances the session id counter by exactly
one. -/
theorem spawnAllocate_nextPtyId (s : PM.PMState) (o : PM.PTYOptions)
    (c : String) (ev : List (String × String)) :
    ((PM.spawnAllocate s o c ev).1).nextPtyId = s.nextPtyId + 1 := by
  unfold PM.spawnAllocate PM.sendToHost
  by_cases h : (!s.hostProcess || !s.hostReady) = true <;> simp [h]

/-- Helper: the id counter across one environment step. -/
theorem step_spawn_nextPtyId (s : PM.PMState) (o : PM.PTYOptions)
    (c : String) (ev : List (String × String)) :
    (PM.step s (PM.PMEvent.spawnReq o c ev)).nextPtyId = s.nextPtyId + 1 := by
  simp only [PM.step]
  rw [spawnAllocate_nextPtyId, startHost_nextPtyId]

/-- Helper: a crash step never touches the id counter. -/
theorem step_crash_nextPtyId (s : PM.PMState) (c : Int) (sg : Option Int) :
    (PM.step s (PM.PMEvent.hostCrash c sg)).nextPtyId = s.nextPtyId := by
  simp only [PM.step]
  split
  · exact hostExitListener_nextPtyId s c sg
  · rfl

/-- Helper: a message step never touches the id counter. -/
theorem step_msg_nextPtyId (s : PM.PMState) (e : HostEvent) :
    (PM.step s (PM.PMEvent.hostMsg e)).nextPtyId = s.nextPtyId := by
  simp only [PM.step]
  split
  · exact handleValidated_nextPtyId s e
  · rfl

/-- Helper: every id issued along a trace is at least the current value
of the counter. -/
theorem runIds_lower_bound (evs : List PM.PMEvent) :
    ∀ (s : PM.PMState), ∀ i ∈ (PM.runIds s evs).2, s.nextPtyId ≤ i := by
  induction evs with
  | nil =>
      intro s i hi
      simp [PM.runIds] at hi
  | cons e tl ih =>
      intro s i hi
      cases e with
      | spawnReq o c ev =>
          simp only [PM.runIds] at hi
          rcases List.mem_cons.mp hi with rfl | hmem
          · exact le_refl _
          · have hle := ih _ i hmem
            rw [step_spawn_nextPtyId] at hle
            omega
      | hostCrash c sg =>
          simp only [PM.runIds] at hi
          have hle := ih _ i hi
          rw [step_crash_nextPtyId] at hle
          exact hle
      | hostMsg ev =>
          simp only [PM.runIds] at hi
          have hle := ih _ i hi
          rw [step_msg_nextPtyId] at hle
          exact hle
      | stopReq =>
          simp only [PM.runIds] at hi
          have hle := ih _ i hi
          rw [show (PM.step s PM.PMEvent.stopReq).nextPtyId = s.nextPtyId from
            stopHost_nextPtyId s] at hle
          exact hle

/-- C6: across every sequence of environment events — `spawn()` calls
interleaved with `stopHost()` calls, worker crashes (with their
restarts) and worker messages — the session ids allocated by one
supervisor instance are strictly increasing, hence never reused. -/
theorem C6_session_ids_strictly_increasing (s : PM.PMState)
    (evs : List PM.PMEvent) :
    List.Chain' (· < ·) (PM.runIds s evs).2 ∧
      List.Pairwise (· ≠ ·) (PM.runIds s evs).2 := by
  have hchain : ∀ (l : List PM.PMEvent) (st : PM.PMState),
      List.Chain' (· < ·) (PM.runIds st l).2 := by
    intro l
    induction l with
    | nil => intro st; simp [PM.runIds]
    | cons e tl ih =>
        intro st
        cases e with
        | spawnReq o c ev =>
            simp only [PM.runIds]
            rw [List.chain'_cons']
            refine ⟨?_, ih _⟩
            intro b hb
            have hmem := List.mem_of_mem_head? hb
            have hlb := runIds_lower_bound tl _ b hmem
            rw [step_spawn_nextPtyId] at hlb
            omega
        | hostCrash c sg =>
            simp only [PM.runIds]
            exact ih _
        | hostMsg ev =>
            simp only [PM.runIds]
            exact ih _
        | stopReq =>
            simp only [PM.runIds]
            exact ih _
  refine ⟨hchain evs s, ?_⟩
  exact (List.chain'_iff_pairwise.mp (hchain evs s)).imp (fun h => ne_of_lt h)
